import Mathlib

/-!
Verification development for the trade-execution core of the open-nof1
trading agent.  The TypeScript sources under src/lib are shallowly embedded:
JS numbers become rationals, optional values become Option, JS truthiness is
modelled explicitly, Map objects become association lists, and exchange /
clock / randomness effects become explicit oracle inputs.
-/

namespace Nof1

/-- JS truthiness of an optional number: undefined and 0 are falsy. -/
def truthyQ : Option ℚ → Bool
  | none => false
  | some q => q != 0

/-- Order side union type: buy or sell. -/
inductive Side
  | buy
  | sell
deriving DecidableEq

/-- The expression used for protective and emergency orders:
side === buy ? sell : buy. -/
def oppositeSide : Side → Side
  | Side.buy => Side.sell
  | Side.sell => Side.buy

/-- Order type union: market or limit. -/
inductive OType
  | market
  | limit
deriving DecidableEq

/-- Position side union type: long or short. -/
inductive PosSide
  | long
  | short
deriving DecidableEq

/-- Position record (src/lib/broker/binance-broker.ts, interface Position). -/
structure Position where
  symbol : String
  side : PosSide
  amount : ℚ
  entryPrice : ℚ
  markPrice : ℚ
  pnl : ℚ
  leverage : ℚ
  liquidationPrice : ℚ
deriving DecidableEq

/-- OrderParams (src/lib/broker/binance-broker.ts).  reduceOnly is an
optional boolean in the source; only its truthiness is ever used, so it is
modelled as a Bool with false standing for undefined. -/
structure OrderParams where
  symbol : String
  side : Side
  otype : OType
  amount : Option ℚ
  cost : Option ℚ
  price : Option ℚ
  leverage : Option ℚ
  stopLoss : Option ℚ
  takeProfit : Option ℚ
  reduceOnly : Bool
deriving DecidableEq

/-- OrderResult (src/lib/exchange/types.ts). -/
structure OrderResult where
  success : Bool
  orderId : Option String
  error : Option String
deriving DecidableEq

/-- One createOrder call issued to the exchange SDK (the arguments of
this.exchange.createOrder together with the params object). -/
structure ExCall where
  symbol : String
  otype : String
  side : Side
  amount : ℚ
  price : Option ℚ
  stopPrice : Option ℚ
  reduceOnly : Bool
deriving DecidableEq

/-- The exchange is modelled as an oracle: a list of responses consumed by
successive createOrder calls, each either an order id or a thrown error
message.  An exhausted oracle behaves as a thrown error. -/
def takeOracle (o : List (Except String String)) :
    Except String String × List (Except String String) :=
  match o with
  | [] => (Except.error ("no response"), [])
  | r :: rest => (r, rest)

/-! ## Symbol normalization

Each component inlines the same expression
symbol.includes(slash) ? symbol : symbol + "/USDT".
String.includes is modelled as membership of the slash character in the
underlying character list. -/

/-- BinanceBroker.normalizeSymbol (src/lib/broker/binance-broker.ts:54). -/
def binanceNormalizeSymbol (symbol : String) : String :=
  if '/' ∈ symbol.data then symbol else symbol ++ "/USDT"

/-- MockBroker.normalizeSymbol (src/lib/broker/mock-broker.ts:36). -/
def mockNormalizeSymbol (symbol : String) : String :=
  if '/' ∈ symbol.data then symbol else symbol ++ "/USDT"

/-- The normalization expression inlined throughout
src/lib/position/position-manager.ts (getPosition, hasPosition, sync
eviction). -/
def pmNormalizeSymbol (symbol : String) : String :=
  if '/' ∈ symbol.data then symbol else symbol ++ "/USDT"

/-- The normalization expression inlined in RiskGuard.validate
(src/lib/risk/risk-guard.ts:26). -/
def riskNormalizeSymbol (symbol : String) : String :=
  if '/' ∈ symbol.data then symbol else symbol ++ "/USDT"

/-! ## Risk guard (src/lib/risk/risk-guard.ts) -/

/-- The fields of RiskConfig that the risk guard reads (src/lib/risk/config.ts
declares further scheduling fields that no claim touches). -/
structure RiskConfig where
  maxLeverage : ℚ
  maxCostPerTrade : ℚ
  symbolWhitelist : List String
deriving DecidableEq

/-- OrderParams as declared in src/lib/risk/risk-guard.ts (all three fields
required). -/
structure RiskOrderParams where
  symbol : String
  cost : ℚ
  leverage : ℚ
deriving DecidableEq

/-- ValidationResult (src/lib/risk/risk-guard.ts). -/
structure ValidationResult where
  allowed : Bool
  reason : Option String
deriving DecidableEq

/-- RiskGuard.validate (src/lib/risk/risk-guard.ts:24-51).  A pure function
of the loaded config and the proposed order. -/
def riskValidate (config : RiskConfig) (params : RiskOrderParams) :
    ValidationResult :=
  let normalizedSymbol := riskNormalizeSymbol params.symbol
  if ¬ config.symbolWhitelist.contains normalizedSymbol then
    { allowed := false
      reason := some ("Symbol " ++ params.symbol ++ " is not in whitelist. Allowed: "
        ++ String.intercalate (", ") config.symbolWhitelist) }
  else if params.leverage < 1 ∨ params.leverage > config.maxLeverage then
    { allowed := false
      reason := some ("Leverage " ++ toString params.leverage
        ++ "x exceeds limit (1-" ++ toString config.maxLeverage ++ "x)") }
  else if params.cost ≤ 0 ∨ params.cost > config.maxCostPerTrade then
    { allowed := false
      reason := some ("Cost $" ++ toString params.cost
        ++ " exceeds limit ($" ++ toString config.maxCostPerTrade ++ " per trade)") }
  else
    { allowed := true, reason := none }

/-! ## Risk config loading (src/lib/risk/config.ts) -/

/-- Digits at the head of a character list. -/
def leadingDigits : List Char → List Char
  | [] => []
  | c :: cs => if c.isDigit then c :: leadingDigits cs else []

/-- Numeric value of a digit list (most significant first). -/
def digitsVal (ds : List Char) : Nat :=
  ds.foldl (fun acc c => acc * 10 + (c.toNat - '0'.toNat)) 0

/-- Leading-whitespace skipper (parseInt ignores leading whitespace). -/
def skipWhitespace : List Char → List Char
  | [] => []
  | c :: cs =>
    if c = ' ' ∨ c = '\t' ∨ c = '\n' ∨ c = '\r' then skipWhitespace cs
    else c :: cs

/-- JS parseInt with radix 10: skip leading whitespace, optional sign, then
leading digits; none models NaN (no digits). -/
def jsParseInt (s : String) : Option Int :=
  match skipWhitespace s.data with
  | '-' :: cs =>
    let ds := leadingDigits cs
    if ds.isEmpty then none else some (-(digitsVal ds : Int))
  | '+' :: cs =>
    let ds := leadingDigits cs
    if ds.isEmpty then none else some (digitsVal ds : Int)
  | cs =>
    let ds := leadingDigits cs
    if ds.isEmpty then none else some (digitsVal ds : Int)

/-- The environment variables getRiskConfig reads for the fields under
verification. -/
structure EnvVars where
  MAX_LEVERAGE : Option String
deriving DecidableEq

/-- The maxLeverage field computed by getRiskConfig
(src/lib/risk/config.ts:18): parseInt(process.env.MAX_LEVERAGE or "10").
none models a NaN result.  The remaining RiskConfig fields are independent
parses of other variables and are not involved in any claim. -/
def getRiskConfigMaxLeverage (env : EnvVars) : Option Int :=
  jsParseInt (env.MAX_LEVERAGE.getD ("10"))

/-! ## BinanceBroker (src/lib/broker/binance-broker.ts)

placeOrder and its helpers are re-expressed as pure functions of the order
parameters, the ticker price, and the exchange oracle.  Each function
returns, besides its result, the list of createOrder calls it issued, the
sleeps it performed (in ms, in order) where relevant, and the unconsumed
oracle.  setLeverage and setMarginMode only log and swallow errors; they
issue no createOrder call and touch no modelled state, so they are not
represented. -/

/-- The order-sizing branch of BinanceBroker.placeOrder
(src/lib/broker/binance-broker.ts:221-232): amount if truthy, else
(cost * leverage) / ticker.last if both truthy, else the sizing error. -/
def binanceOrderAmount (params : OrderParams) (tickerLast : ℚ) : Option ℚ :=
  if truthyQ params.amount then params.amount
  else if truthyQ params.cost ∧ truthyQ params.leverage then
    some (params.cost.getD 0 * params.leverage.getD 0 / tickerLast)
  else none

/-- The retry loop of BinanceBroker.placeStopLoss
(src/lib/broker/binance-broker.ts:98-124): attempt is the 1-based loop
counter, fuel the number of attempts still allowed
(maxRetries - attempt + 1).  Returns the order id on success, the sleeps
performed, the createOrder calls issued, and the remaining oracle. -/
def binancePlaceStopLossAux (symbol : String) (amount stopPrice : ℚ)
    (stopSide : Side) :
    Nat → Nat → List (Except String String) →
    Option String × List Nat × List ExCall × List (Except String String)
  | _attempt, 0, oracle => (none, [], [], oracle)
  | attempt, fuel + 1, oracle =>
    let call : ExCall :=
      { symbol := symbol, otype := "STOP_MARKET", side := stopSide,
        amount := amount, price := none, stopPrice := some stopPrice,
        reduceOnly := true }
    match takeOracle oracle with
    | (Except.ok id, rest) => (some id, [], [call], rest)
    | (Except.error _, rest) =>
      if fuel = 0 then (none, [], [call], rest)
      else
        match binancePlaceStopLossAux symbol amount stopPrice stopSide
            (attempt + 1) fuel rest with
        | (r, ws, cs, rest') => (r, attempt * 1000 :: ws, call :: cs, rest')

/-- BinanceBroker.placeStopLoss (src/lib/broker/binance-broker.ts:89-127):
protective side opposite the entry side; loop starts at attempt 1. -/
def binancePlaceStopLoss (symbol : String) (amount stopPrice : ℚ)
    (side : Side) (maxRetries : Nat) (oracle : List (Except String String)) :
    Option String × List Nat × List ExCall × List (Except String String) :=
  binancePlaceStopLossAux symbol amount stopPrice (oppositeSide side)
    1 maxRetries oracle

/-- The retry loop of BinanceBroker.placeTakeProfit
(src/lib/broker/binance-broker.ts:141-167), structured exactly like the
stop-loss loop but issuing TAKE_PROFIT_MARKET orders. -/
def binancePlaceTakeProfitAux (symbol : String) (amount profitPrice : ℚ)
    (profitSide : Side) :
    Nat → Nat → List (Except String String) →
    Option String × List Nat × List ExCall × List (Except String String)
  | _attempt, 0, oracle => (none, [], [], oracle)
  | attempt, fuel + 1, oracle =>
    let call : ExCall :=
      { symbol := symbol, otype := "TAKE_PROFIT_MARKET", side := profitSide,
        amount := amount, price := none, stopPrice := some profitPrice,
        reduceOnly := true }
    match takeOracle oracle with
    | (Except.ok id, rest) => (some id, [], [call], rest)
    | (Except.error _, rest) =>
      if fuel = 0 then (none, [], [call], rest)
      else
        match binancePlaceTakeProfitAux symbol amount profitPrice profitSide
            (attempt + 1) fuel rest with
        | (r, ws, cs, rest') => (r, attempt * 1000 :: ws, call :: cs, rest')

/-- BinanceBroker.placeTakeProfit (src/lib/broker/binance-broker.ts:132-170). -/
def binancePlaceTakeProfit (symbol : String) (amount profitPrice : ℚ)
    (side : Side) (maxRetries : Nat) (oracle : List (Except String String)) :
    Option String × List Nat × List ExCall × List (Except String String) :=
  binancePlaceTakeProfitAux symbol amount profitPrice (oppositeSide side)
    1 maxRetries oracle

/-- BinanceBroker.emergencyClose (src/lib/broker/binance-broker.ts:175-200):
one reduce-only market order on the opposing side; true iff it was
accepted. -/
def binanceEmergencyClose (symbol : String) (amount : ℚ) (side : Side)
    (oracle : List (Except String String)) :
    Bool × ExCall × List (Except String String) :=
  let call : ExCall :=
    { symbol := symbol, otype := "market", side := oppositeSide side,
      amount := amount, price := none, stopPrice := none, reduceOnly := true }
  match takeOracle oracle with
  | (Except.ok _, rest) => (true, call, rest)
  | (Except.error _, rest) => (false, call, rest)

/-- BinanceBroker.placeOrder (src/lib/broker/binance-broker.ts:205-342):
the protected-order protocol.  tickerLast is the price fetchTicker would
report; the oracle answers the successive createOrder calls.  Returns the
OrderResult and every createOrder call issued, in order. -/
def binancePlaceOrder (params : OrderParams) (tickerLast : ℚ)
    (oracle : List (Except String String)) : OrderResult × List ExCall :=
  let symbol := binanceNormalizeSymbol params.symbol
  match binanceOrderAmount params tickerLast with
  | none =>
    ({ success := false, orderId := none,
       error := some ("Either amount or (cost + leverage) must be specified") },
     [])
  | some orderAmount =>
    let mainCall : ExCall :=
      if params.otype = OType.limit ∧ truthyQ params.price then
        { symbol := symbol, otype := "limit", side := params.side,
          amount := orderAmount, price := params.price, stopPrice := none,
          reduceOnly := params.reduceOnly }
      else
        { symbol := symbol, otype := "market", side := params.side,
          amount := orderAmount, price := none, stopPrice := none,
          reduceOnly := params.reduceOnly }
    match takeOracle oracle with
    | (Except.error e, _) =>
      ({ success := false, orderId := none, error := some e }, [mainCall])
    | (Except.ok mainId, o1) =>
      if params.reduceOnly = false ∧
          (truthyQ params.stopLoss ∨ truthyQ params.takeProfit) then
        match (if truthyQ params.stopLoss then
                 binancePlaceStopLoss symbol orderAmount
                   (params.stopLoss.getD 0) params.side 3 o1
               else (none, [], [], o1)) with
        | (slId, _slWaits, slCalls, o2) =>
          let protectionFailed := truthyQ params.stopLoss ∧ slId.isNone
          match (if truthyQ params.takeProfit ∧ ¬ protectionFailed then
                   binancePlaceTakeProfit symbol orderAmount
                     (params.takeProfit.getD 0) params.side 3 o2
                 else (none, [], [], o2)) with
          | (_tpId, _tpWaits, tpCalls, o3) =>
            if protectionFailed then
              match binanceEmergencyClose symbol orderAmount params.side o3 with
              | (closeSuccess, emCall, _o4) =>
                if closeSuccess then
                  ({ success := false, orderId := none,
                     error := some ("Position opened but protection orders failed. Position was closed immediately for safety.") },
                   mainCall :: (slCalls ++ tpCalls ++ [emCall]))
                else
                  ({ success := false, orderId := none,
                     error := some ("CRITICAL: Position opened at " ++ symbol
                       ++ " without protection and emergency close failed! Order ID: "
                       ++ mainId ++ ". MANUAL INTERVENTION REQUIRED!") },
                   mainCall :: (slCalls ++ tpCalls ++ [emCall]))
            else
              ({ success := true, orderId := some mainId, error := none },
               mainCall :: (slCalls ++ tpCalls))
      else
        ({ success := true, orderId := some mainId, error := none }, [mainCall])

/-! ## Association-list model of the JS Map objects

Map preserves insertion order; set replaces in place or appends, delete
removes the key, get looks it up. -/

/-- Map.get. -/
def assocGet {α : Type} (l : List (String × α)) (k : String) : Option α :=
  (l.find? (fun p => p.1 = k)).map (fun p => p.2)

/-- Map.set: replace the existing binding in place, else append. -/
def assocSet {α : Type} (l : List (String × α)) (k : String) (v : α) :
    List (String × α) :=
  if (l.find? (fun p => p.1 = k)).isSome then
    l.map (fun p => if p.1 = k then (k, v) else p)
  else l ++ [(k, v)]

/-- Map.delete. -/
def assocDelete {α : Type} (l : List (String × α)) (k : String) :
    List (String × α) :=
  l.filter (fun p => ¬ p.1 = k)

/-! ## MockBroker (src/lib/broker/mock-broker.ts)

Math.random draws are passed in as a rand parameter in [0,1]; Date.now as
now.  getPositions (price drift and PnL update) is not needed by any claim
and is not modelled; placeOrder never touches mockPrices. -/

/-- The mutable fields of MockBroker. -/
structure MockState where
  mockPositions : List (String × Position)
  mockBalance : ℚ
  orderCounter : Nat
  mockPrices : List (String × ℚ)
deriving DecidableEq

/-- MockBroker.getMockPrice (src/lib/broker/mock-broker.ts:43-56): a seeded
price gets plus-minus 0.5 percent volatility from the draw; an unknown
symbol prices at rand * 1000 + 100. -/
def mockGetPrice (s : MockState) (symbol : String) (rand : ℚ) : ℚ :=
  let normalized := mockNormalizeSymbol symbol
  match assocGet s.mockPrices normalized with
  | none => rand * 1000 + 100
  | some price =>
    let volatility : ℚ := 5 / 1000
    let randomChange := (rand - 1 / 2) * 2 * volatility
    price * (1 + randomChange)

/-- MockBroker.calculateLiquidationPrice
(src/lib/broker/mock-broker.ts:193-207). -/
def calculateLiquidationPrice (entryPrice : ℚ) (side : PosSide)
    (leverage : ℚ) : ℚ :=
  let maintenanceMarginRate : ℚ := 4 / 1000
  let liquidationPercentage := 1 / leverage - maintenanceMarginRate
  match side with
  | PosSide.long => entryPrice * (1 - liquidationPercentage)
  | PosSide.short => entryPrice * (1 + liquidationPercentage)

/-- The order-sizing branch of MockBroker.placeOrder
(src/lib/broker/mock-broker.ts:107-115). -/
def mockOrderAmount (params : OrderParams) (currentPrice : ℚ) : Option ℚ :=
  if truthyQ params.amount then params.amount
  else if truthyQ params.cost ∧ truthyQ params.leverage then
    some (params.cost.getD 0 * params.leverage.getD 0 / currentPrice)
  else none

/-- MockBroker.placeOrder (src/lib/broker/mock-broker.ts:91-188).  rand
feeds getMockPrice, now feeds the Date.now() part of the order id.
Position updates are skipped entirely when reduceOnly is set; otherwise an
opposite-side order deletes an existing position and a fresh symbol opens a
new one.  Stop-loss and take-profit requests are only logged. -/
def mockPlaceOrder (s : MockState) (params : OrderParams) (rand : ℚ)
    (now : Nat) : OrderResult × MockState :=
  let symbol := mockNormalizeSymbol params.symbol
  let currentPrice := mockGetPrice s symbol rand
  match mockOrderAmount params currentPrice with
  | none =>
    ({ success := false, orderId := none,
       error := some ("Either amount or (cost + leverage) must be specified") },
     s)
  | some orderAmount =>
    let orderId := "MOCK_" ++ toString s.orderCounter ++ "_" ++ toString now
    let s1 := { s with orderCounter := s.orderCounter + 1 }
    let s2 :=
      if params.reduceOnly then s1
      else
        match assocGet s1.mockPositions symbol with
        | some existingPosition =>
          if (existingPosition.side = PosSide.long ∧ params.side = Side.sell)
              ∨ (existingPosition.side = PosSide.short ∧ params.side = Side.buy) then
            { s1 with mockPositions := assocDelete s1.mockPositions symbol }
          else s1
        | none =>
          -- params.leverage or 1: JS truthiness, so undefined and 0 both give 1
          let lev := if truthyQ params.leverage then params.leverage.getD 1 else 1
          let newPosition : Position :=
            { symbol := symbol
              side := if params.side = Side.buy then PosSide.long else PosSide.short
              amount := orderAmount
              entryPrice := currentPrice
              markPrice := currentPrice
              pnl := 0
              leverage := lev
              liquidationPrice := calculateLiquidationPrice currentPrice
                (if params.side = Side.buy then PosSide.long else PosSide.short)
                lev }
          { s1 with mockPositions := assocSet s1.mockPositions symbol newPosition }
    ({ success := true, orderId := some orderId, error := none }, s2)

/-! ## PositionManager (src/lib/position/position-manager.ts)

Date.now() is the now parameter; the broker fetch result is passed in as
brokerPositions.  Each sync returns the new state together with a flag
recording whether a broker fetch happened. -/

/-- The mutable fields of PositionManager. -/
structure PMState where
  positions : List (String × Position)
  lastSyncTime : Nat
deriving DecidableEq

/-- syncCooldown = 5000 ms (src/lib/position/position-manager.ts:12). -/
def syncCooldown : Nat := 5000

/-- PositionManager.syncPositions (src/lib/position/position-manager.ts:19-54).
Within the cooldown the call returns at once (no fetch, no change).
Otherwise it fetches, evicts the given symbols (or clears everything when
none are given), inserts the fetched positions keyed by their symbol, and
records now as lastSyncTime.  JS computes now - lastSyncTime on
possibly-negative values, but a negative difference passes the < 5000 test
exactly as the truncated Nat difference 0 does. -/
def pmSyncPositions (s : PMState) (now : Nat) (symbols : Option (List String))
    (brokerPositions : List Position) : PMState × Bool :=
  if now - s.lastSyncTime < syncCooldown then (s, false)
  else
    let cleared :=
      match symbols with
      | some syms =>
        if syms.length > 0 then
          syms.foldl (fun acc symbol => assocDelete acc (pmNormalizeSymbol symbol))
            s.positions
        else []
      | none => []
    let updated := brokerPositions.foldl
      (fun acc position => assocSet acc position.symbol position) cleared
    ({ positions := updated, lastSyncTime := now }, true)

/-- PositionManager.forceSync (src/lib/position/position-manager.ts:201-204):
reset lastSyncTime to 0 then sync. -/
def pmForceSync (s : PMState) (now : Nat) (symbols : Option (List String))
    (brokerPositions : List Position) : PMState × Bool :=
  pmSyncPositions { s with lastSyncTime := 0 } now symbols brokerPositions

/-- PositionManager.getPosition (src/lib/position/position-manager.ts:59-62). -/
def pmGetPosition (s : PMState) (symbol : String) : Option Position :=
  assocGet s.positions (pmNormalizeSymbol symbol)

/-- PositionManager.getAllPositions. -/
def pmGetAllPositions (s : PMState) : List Position :=
  s.positions.map (fun p => p.2)

/-- PositionManager.hasPosition. -/
def pmHasPosition (s : PMState) (symbol : String) : Bool :=
  (assocGet s.positions (pmNormalizeSymbol symbol)).isSome

/-- PositionManager.getPositionCount. -/
def pmPositionCount (s : PMState) : Nat :=
  s.positions.length

/-- PositionManager.getTotalUnrealizedPnL. -/
def pmTotalUnrealizedPnL (s : PMState) : ℚ :=
  (pmGetAllPositions s).foldl (fun total position => total + position.pnl) 0

/-- PositionManager.canOpenPosition
(src/lib/position/position-manager.ts:125-142).  The riskGuard argument of
the source is never read in the body. -/
def pmCanOpenPosition (s : PMState) (symbol : String) (maxPositions : Nat) :
    Bool :=
  if pmPositionCount s ≥ maxPositions then false
  else if pmHasPosition s symbol then false
  else true

/-! ## Agent tools (src/lib/agent/tools) -/

/-- The action enumeration of the place-order tool. -/
inductive ToolAction
  | open_long
  | close_long
  | open_short
  | close_short
deriving DecidableEq

/-- The validated arguments of placeOrderTool.execute. -/
structure ToolArgs where
  symbol : String
  action : ToolAction
  cost : Option ℚ
  leverage : Option ℚ
  stopLoss : Option ℚ
  takeProfit : Option ℚ
deriving DecidableEq

/-- The tagged result object returned to the LLM.  The JS object carries a
rejected field only on the risk-rejection branch; here rejected is false
wherever the source omits it. -/
structure ToolResult where
  success : Bool
  rejected : Bool
  orderId : Option String
  error : Option String
deriving DecidableEq

/-- placeOrderTool.execute (src/lib/agent/tools/place-order.tool.ts:39-211).
brokerFn abstracts broker.placeOrder; brokerPositionsAfter is what the
broker reports during the post-trade forceSync; now is Date.now() at that
sync.  Besides the tool result and the updated position-manager state, the
list of broker.placeOrder requests issued is returned so that the claims
can speak about broker calls. -/
def placeOrderExecute (cfg : RiskConfig) (pm : PMState) (now : Nat)
    (brokerFn : OrderParams → OrderResult)
    (brokerPositionsAfter : List Position) (args : ToolArgs) :
    ToolResult × PMState × List OrderParams :=
  match args.action with
  | ToolAction.open_long =>
    if ¬ truthyQ args.cost then
      ({ success := false, rejected := false, orderId := none,
         error := some ("Cost is required for opening positions") }, pm, [])
    else if ¬ truthyQ args.leverage then
      ({ success := false, rejected := false, orderId := none,
         error := some ("Leverage is required for opening positions") }, pm, [])
    else
      let validation := riskValidate cfg
        { symbol := args.symbol, cost := args.cost.getD 0,
          leverage := args.leverage.getD 0 }
      if ¬ validation.allowed then
        ({ success := false, rejected := true, orderId := none,
           error := some ("Risk check failed: " ++ validation.reason.getD ("")) },
         pm, [])
      else if ¬ pmCanOpenPosition pm args.symbol 5 then
        ({ success := false, rejected := false, orderId := none,
           error := some ("Cannot open position: max positions reached or position already exists") },
         pm, [])
      else
        let req : OrderParams :=
          { symbol := args.symbol, side := Side.buy, otype := OType.market,
            amount := none, cost := args.cost, price := none,
            leverage := args.leverage, stopLoss := args.stopLoss,
            takeProfit := args.takeProfit, reduceOnly := false }
        let result := brokerFn req
        let pm' := (pmForceSync pm now (some [args.symbol]) brokerPositionsAfter).1
        ({ success := result.success, rejected := false,
           orderId := result.orderId, error := result.error }, pm', [req])
  | ToolAction.open_short =>
    if ¬ truthyQ args.cost then
      ({ success := false, rejected := false, orderId := none,
         error := some ("Cost is required for opening positions") }, pm, [])
    else if ¬ truthyQ args.leverage then
      ({ success := false, rejected := false, orderId := none,
         error := some ("Leverage is required for opening positions") }, pm, [])
    else
      let validation := riskValidate cfg
        { symbol := args.symbol, cost := args.cost.getD 0,
          leverage := args.leverage.getD 0 }
      if ¬ validation.allowed then
        ({ success := false, rejected := true, orderId := none,
           error := some ("Risk check failed: " ++ validation.reason.getD ("")) },
         pm, [])
      else if ¬ pmCanOpenPosition pm args.symbol 5 then
        ({ success := false, rejected := false, orderId := none,
           error := some ("Cannot open position: max positions reached or position already exists") },
         pm, [])
      else
        let req : OrderParams :=
          { symbol := args.symbol, side := Side.sell, otype := OType.market,
            amount := none, cost := args.cost, price := none,
            leverage := args.leverage, stopLoss := args.stopLoss,
            takeProfit := args.takeProfit, reduceOnly := false }
        let result := brokerFn req
        let pm' := (pmForceSync pm now (some [args.symbol]) brokerPositionsAfter).1
        ({ success := result.success, rejected := false,
           orderId := result.orderId, error := result.error }, pm', [req])
  | ToolAction.close_long =>
    match pmGetPosition pm args.symbol with
    | some position =>
      if position.side = PosSide.long then
        let req : OrderParams :=
          { symbol := args.symbol, side := Side.sell, otype := OType.market,
            amount := some position.amount, cost := none, price := none,
            leverage := none, stopLoss := none, takeProfit := none,
            reduceOnly := true }
        let result := brokerFn req
        let pm' := (pmForceSync pm now (some [args.symbol]) brokerPositionsAfter).1
        ({ success := result.success, rejected := false,
           orderId := result.orderId, error := result.error }, pm', [req])
      else
        ({ success := false, rejected := false, orderId := none,
           error := some ("No long position found for " ++ args.symbol) }, pm, [])
    | none =>
      ({ success := false, rejected := false, orderId := none,
         error := some ("No long position found for " ++ args.symbol) }, pm, [])
  | ToolAction.close_short =>
    match pmGetPosition pm args.symbol with
    | some position =>
      if position.side = PosSide.short then
        let req : OrderParams :=
          { symbol := args.symbol, side := Side.buy, otype := OType.market,
            amount := some position.amount, cost := none, price := none,
            leverage := none, stopLoss := none, takeProfit := none,
            reduceOnly := true }
        let result := brokerFn req
        let pm' := (pmForceSync pm now (some [args.symbol]) brokerPositionsAfter).1
        ({ success := result.success, rejected := false,
           orderId := result.orderId, error := result.error }, pm', [req])
      else
        ({ success := false, rejected := false, orderId := none,
           error := some ("No short position found for " ++ args.symbol) }, pm, [])
    | none =>
      ({ success := false, rejected := false, orderId := none,
         error := some ("No short position found for " ++ args.symbol) }, pm, [])

/-- The numeric fields of the accountInfoTool result.  The sharpeRatio field
needs a real square root and is outside every claim, so it is omitted. -/
structure AccountInfoData where
  success : Bool
  balance : ℚ
  positionsCount : Nat
  currentAccountValue : ℚ
  totalReturn : ℚ
deriving DecidableEq

/-- accountInfoTool.execute (src/lib/agent/tools/account-info.tool.ts:17-107).
The tool calls positionManager.syncPositions(symbols) - not forceSync - then
reads broker.getAccountInfo().balance as availableCash, sums the cached PnL,
and computes the account value and the total-return percentage with
initialCapital defaulting (by JS truthiness) to 10000.  brokerBalance stands
for the balance the broker reports; the fetched flag of the sync is passed
through so claims can observe whether a broker position fetch happened. -/
def accountInfoExecute (pm : PMState) (now : Nat) (symbols : List String)
    (initialCapital : Option ℚ) (brokerPositions : List Position)
    (brokerBalance : ℚ) : AccountInfoData × PMState × Bool :=
  match pmSyncPositions pm now (some symbols) brokerPositions with
  | (pm', fetched) =>
    let availableCash := brokerBalance
    let positions := pmGetAllPositions pm'
    let totalUnrealizedPnl := pmTotalUnrealizedPnL pm'
    let currentAccountValue := availableCash + totalUnrealizedPnl
    let initial := if truthyQ initialCapital then initialCapital.getD 0 else 10000
    let currentTotalReturnPercent := (currentAccountValue - initial) / initial * 100
    ({ success := true, balance := availableCash,
       positionsCount := positions.length,
       currentAccountValue := currentAccountValue,
       totalReturn := currentTotalReturnPercent }, pm', fetched)

/-! ## Relational audit layer (src/lib/trading/account-information-and-performance.ts) -/

/-- The closed symbol enumeration of the relational schema. -/
inductive SymbolEnum
  | BTC
  | ETH
  | BNB
  | SOL
  | DOGE
deriving DecidableEq

/-- JS symbol.split(slash)[0]: the prefix before the first slash (the whole
string when no slash occurs). -/
def jsSplitHead (s : String) : String :=
  String.mk (s.data.takeWhile (fun c => c ≠ '/'))

/-- JS String.prototype.toUpperCase, character by character. -/
def jsToUpperCase (s : String) : String :=
  String.mk (s.data.map Char.toUpper)

/-- TradingRepository.mapSymbol
(src/lib/trading/account-information-and-performance.ts:142-159): the text
before the first slash, upper-cased, switches over the five known tickers
with BTC as the default fallback. -/
def mapSymbol (symbol : String) : SymbolEnum :=
  let baseSymbol := jsToUpperCase (jsSplitHead symbol)
  if baseSymbol = "BTC" then SymbolEnum.BTC
  else if baseSymbol = "ETH" then SymbolEnum.ETH
  else if baseSymbol = "BNB" then SymbolEnum.BNB
  else if baseSymbol = "SOL" then SymbolEnum.SOL
  else if baseSymbol = "DOGE" then SymbolEnum.DOGE
  else SymbolEnum.BTC

/-- s contains t as a substring. -/
def containsStr (s t : String) : Prop :=
  ∃ a b, s = a ++ t ++ b

/-- The STOP_MARKET call that each stop-loss attempt issues. -/
def slCallOf (symbol : String) (amount stopPrice : ℚ) (side : Side) : ExCall :=
  { symbol := symbol, otype := "STOP_MARKET", side := oppositeSide side,
    amount := amount, price := none, stopPrice := some stopPrice,
    reduceOnly := true }

/-- The TAKE_PROFIT_MARKET call that each take-profit attempt issues. -/
def tpCallOf (symbol : String) (amount profitPrice : ℚ) (side : Side) : ExCall :=
  { symbol := symbol, otype := "TAKE_PROFIT_MARKET", side := oppositeSide side,
    amount := amount, price := none, stopPrice := some profitPrice,
    reduceOnly := true }

/-- The reduce-only market order that emergencyClose issues. -/
def emCallOf (symbol : String) (amount : ℚ) (side : Side) : ExCall :=
  { symbol := symbol, otype := "market", side := oppositeSide side,
    amount := amount, price := none, stopPrice := none, reduceOnly := true }

/-! # Theorems settling the claims -/

/-- C9: symbol normalization is the same function in the Binance broker, the
mock broker, the position manager and the risk guard; it is idempotent; and
it is the identity on strings that already contain a slash. -/
theorem normalizeSymbol_agree_idempotent (s : String) :
    binanceNormalizeSymbol s = mockNormalizeSymbol s ∧
    mockNormalizeSymbol s = pmNormalizeSymbol s ∧
    pmNormalizeSymbol s = riskNormalizeSymbol s ∧
    binanceNormalizeSymbol (binanceNormalizeSymbol s) = binanceNormalizeSymbol s ∧
    (s.data.contains '/' = true → binanceNormalizeSymbol s = s) := by
  refine ⟨rfl, rfl, rfl, ?_, ?_⟩
  · unfold binanceNormalizeSymbol
    by_cases h : '/' ∈ s.data
    · rw [if_pos h, if_pos h]
    · rw [if_neg h]
      have hmem : '/' ∈ (s ++ "/USDT").data := by
        rw [String.data_append]
        exact List.mem_append_right _ (by decide)
      rw [if_pos hmem]
  · intro h
    unfold binanceNormalizeSymbol
    rw [if_pos (by simpa using h)]

/-- Closed instance of the C9 theorem at concrete symbols. -/
theorem normalizeSymbol_agree_idempotent_witness :
    binanceNormalizeSymbol (binanceNormalizeSymbol ("BTC")) = binanceNormalizeSymbol ("BTC") ∧
    binanceNormalizeSymbol ("BTC/USDT") = "BTC/USDT" :=
  ⟨(normalizeSymbol_agree_idempotent ("BTC")).2.2.2.1,
   (normalizeSymbol_agree_idempotent ("BTC/USDT")).2.2.2.2 (by decide)⟩

/-- C10: any symbol whose upper-cased base (the text before the slash) is
outside the five known tickers is mapped to the BTC enum value by the
relational audit layer. -/
theorem mapSymbol_unknown_to_BTC (s : String)
    (h : jsToUpperCase (jsSplitHead s) ∉
      (["BTC", "ETH", "BNB", "SOL", "DOGE"] : List String)) :
    mapSymbol s = SymbolEnum.BTC := by
  simp only [List.mem_cons, List.mem_singleton, not_or] at h
  obtain ⟨h1, h2, h3, h4, h5, -⟩ := h
  unfold mapSymbol
  simp [h1, h2, h3, h4, h5]

/-- Closed instance of the C10 theorem: an XRP symbol is silently recorded
as BTC. -/
theorem mapSymbol_unknown_to_BTC_witness :
    jsToUpperCase (jsSplitHead ("XRP/USDT")) ∉
      (["BTC", "ETH", "BNB", "SOL", "DOGE"] : List String) ∧
    mapSymbol ("XRP/USDT") = SymbolEnum.BTC :=
  ⟨by decide, mapSymbol_unknown_to_BTC ("XRP/USDT") (by decide)⟩

/-- C7 counterexample: getRiskConfig applies no hard cap, so the environment
value 50 loads a maxLeverage of 50, above 20. -/
theorem getRiskConfigMaxLeverage_no_cap :
    getRiskConfigMaxLeverage { MAX_LEVERAGE := some ("50") } = some 50 ∧
    ¬ ((50 : Int) ≤ 20) := by
  exact ⟨by decide, by decide⟩

/-- C7 amended: MAX_LEVERAGE defaults to 10 when the variable is unset, and
whatever integer the environment value parses to is loaded unchanged (no
hard cap is applied). -/
theorem getRiskConfigMaxLeverage_amended :
    getRiskConfigMaxLeverage { MAX_LEVERAGE := none } = some 10 ∧
    ∀ (s : String) (n : Int), jsParseInt s = some n →
      getRiskConfigMaxLeverage { MAX_LEVERAGE := some s } = some n := by
  refine ⟨by decide, ?_⟩
  intro s n h
  unfold getRiskConfigMaxLeverage
  simpa using h

/-- Closed instance of the amended C7 theorem at the value 50. -/
theorem getRiskConfigMaxLeverage_amended_witness :
    jsParseInt ("50") = some 50 ∧
    getRiskConfigMaxLeverage { MAX_LEVERAGE := some ("50") } = some 50 :=
  ⟨by decide, getRiskConfigMaxLeverage_amended.2 ("50") 50 (by decide)⟩

/-- C5: a syncPositions call within the cooldown returns the state
unchanged and performs no broker fetch; hence of two calls, the first
outside the cooldown of the previous sync and the second within the
cooldown of the first, exactly the first fetches. -/
theorem pmSyncPositions_cooldown :
    (∀ (s : PMState) (now : Nat) (symbols : Option (List String))
        (bpos : List Position),
      now - s.lastSyncTime < syncCooldown →
      pmSyncPositions s now symbols bpos = (s, false)) ∧
    (∀ (s : PMState) (t1 t2 : Nat) (sy1 sy2 : Option (List String))
        (b1 b2 : List Position),
      syncCooldown ≤ t1 - s.lastSyncTime → t2 - t1 < syncCooldown →
      (pmSyncPositions s t1 sy1 b1).2 = true ∧
      pmSyncPositions (pmSyncPositions s t1 sy1 b1).1 t2 sy2 b2 =
        ((pmSyncPositions s t1 sy1 b1).1, false)) := by
  constructor
  · intro s now symbols bpos h
    unfold pmSyncPositions
    rw [if_pos h]
  · intro s t1 t2 sy1 sy2 b1 b2 h1 h2
    have hn1 : ¬ (t1 - s.lastSyncTime < syncCooldown) := not_lt.mpr h1
    have hfst : (pmSyncPositions s t1 sy1 b1).1.lastSyncTime = t1 := by
      unfold pmSyncPositions
      rw [if_neg hn1]
    constructor
    · unfold pmSyncPositions
      rw [if_neg hn1]
    · conv_lhs => rw [pmSyncPositions.eq_def]
      rw [if_pos (by rw [hfst]; exact h2)]

/-- Closed instance of the C5 theorem: from a fresh manager, a sync at
t=5000 fetches and a second sync at t=6000 is skipped unchanged. -/
theorem pmSyncPositions_cooldown_witness :
    pmSyncPositions { positions := [], lastSyncTime := 10000 } 12000 none [] =
      ({ positions := [], lastSyncTime := 10000 }, false) ∧
    (pmSyncPositions { positions := [], lastSyncTime := 0 } 5000 none []).2 = true ∧
    pmSyncPositions
        (pmSyncPositions { positions := [], lastSyncTime := 0 } 5000 none []).1
        6000 none [] =
      ((pmSyncPositions { positions := [], lastSyncTime := 0 } 5000 none []).1,
       false) :=
  ⟨pmSyncPositions_cooldown.1 _ 12000 none [] (by decide),
   (pmSyncPositions_cooldown.2 _ 5000 6000 none none [] [] (by decide) (by decide)).1,
   (pmSyncPositions_cooldown.2 _ 5000 6000 none none [] [] (by decide) (by decide)).2⟩

/-- C6: stop-loss and take-profit placement run at most 3 attempts; a
failure at attempt i with i < 3 sleeps i * 1000 ms before the next attempt,
there is no sleep before the first attempt and none after the third
failure; exhausting all three attempts returns no order id (the rollback
trigger).  Stated by enumerating every behavior of the 3-attempt loop on
the first three oracle answers, for both protective order kinds. -/
theorem protective_retry_backoff :
    (∀ (sym : String) (amt sp : ℚ) (side : Side) (id : String)
        (rest : List (Except String String)),
      binancePlaceStopLoss sym amt sp side 3 (Except.ok id :: rest) =
        (some id, [], [slCallOf sym amt sp side], rest)) ∧
    (∀ (sym : String) (amt sp : ℚ) (side : Side) (e1 id : String)
        (rest : List (Except String String)),
      binancePlaceStopLoss sym amt sp side 3
          (Except.error e1 :: Except.ok id :: rest) =
        (some id, [1000], [slCallOf sym amt sp side, slCallOf sym amt sp side],
         rest)) ∧
    (∀ (sym : String) (amt sp : ℚ) (side : Side) (e1 e2 id : String)
        (rest : List (Except String String)),
      binancePlaceStopLoss sym amt sp side 3
          (Except.error e1 :: Except.error e2 :: Except.ok id :: rest) =
        (some id, [1000, 2000],
         [slCallOf sym amt sp side, slCallOf sym amt sp side,
          slCallOf sym amt sp side], rest)) ∧
    (∀ (sym : String) (amt sp : ℚ) (side : Side) (e1 e2 e3 : String)
        (rest : List (Except String String)),
      binancePlaceStopLoss sym amt sp side 3
          (Except.error e1 :: Except.error e2 :: Except.error e3 :: rest) =
        (none, [1000, 2000],
         [slCallOf sym amt sp side, slCallOf sym amt sp side,
          slCallOf sym amt sp side], rest)) ∧
    (∀ (sym : String) (amt sp : ℚ) (side : Side)
        (oracle : List (Except String String)),
      (binancePlaceStopLoss sym amt sp side 3 oracle).2.2.1.length ≤ 3) ∧
    (∀ (sym : String) (amt tp : ℚ) (side : Side) (id : String)
        (rest : List (Except String String)),
      binancePlaceTakeProfit sym amt tp side 3 (Except.ok id :: rest) =
        (some id, [], [tpCallOf sym amt tp side], rest)) ∧
    (∀ (sym : String) (amt tp : ℚ) (side : Side) (e1 id : String)
        (rest : List (Except String String)),
      binancePlaceTakeProfit sym amt tp side 3
          (Except.error e1 :: Except.ok id :: rest) =
        (some id, [1000], [tpCallOf sym amt tp side, tpCallOf sym amt tp side],
         rest)) ∧
    (∀ (sym : String) (amt tp : ℚ) (side : Side) (e1 e2 id : String)
        (rest : List (Except String String)),
      binancePlaceTakeProfit sym amt tp side 3
          (Except.error e1 :: Except.error e2 :: Except.ok id :: rest) =
        (some id, [1000, 2000],
         [tpCallOf sym amt tp side, tpCallOf sym amt tp side,
          tpCallOf sym amt tp side], rest)) ∧
    (∀ (sym : String) (amt tp : ℚ) (side : Side) (e1 e2 e3 : String)
        (rest : List (Except String String)),
      binancePlaceTakeProfit sym amt tp side 3
          (Except.error e1 :: Except.error e2 :: Except.error e3 :: rest) =
        (none, [1000, 2000],
         [tpCallOf sym amt tp side, tpCallOf sym amt tp side,
          tpCallOf sym amt tp side], rest)) ∧
    (∀ (sym : String) (amt tp : ℚ) (side : Side)
        (oracle : List (Except String String)),
      (binancePlaceTakeProfit sym amt tp side 3 oracle).2.2.1.length ≤ 3) := by
  refine ⟨?_, ?_, ?_, ?_, ?_, ?_, ?_, ?_, ?_, ?_⟩
  · intro sym amt sp side id rest
    simp [binancePlaceStopLoss, binancePlaceStopLossAux, takeOracle, slCallOf]
  · intro sym amt sp side e1 id rest
    simp [binancePlaceStopLoss, binancePlaceStopLossAux, takeOracle, slCallOf]
  · intro sym amt sp side e1 e2 id rest
    simp [binancePlaceStopLoss, binancePlaceStopLossAux, takeOracle, slCallOf]
  · intro sym amt sp side e1 e2 e3 rest
    simp [binancePlaceStopLoss, binancePlaceStopLossAux, takeOracle, slCallOf]
  · intro sym amt sp side oracle
    match oracle with
    | [] =>
      simp [binancePlaceStopLoss, binancePlaceStopLossAux, takeOracle]
    | a :: [] =>
      cases a <;>
        simp [binancePlaceStopLoss, binancePlaceStopLossAux, takeOracle]
    | a :: b :: [] =>
      cases a <;> cases b <;>
        simp [binancePlaceStopLoss, binancePlaceStopLossAux, takeOracle]
    | a :: b :: c :: rest =>
      cases a <;> cases b <;> cases c <;>
        simp [binancePlaceStopLoss, binancePlaceStopLossAux, takeOracle]
  · intro sym amt tp side id rest
    simp [binancePlaceTakeProfit, binancePlaceTakeProfitAux, takeOracle, tpCallOf]
  · intro sym amt tp side e1 id rest
    simp [binancePlaceTakeProfit, binancePlaceTakeProfitAux, takeOracle, tpCallOf]
  · intro sym amt tp side e1 e2 id rest
    simp [binancePlaceTakeProfit, binancePlaceTakeProfitAux, takeOracle, tpCallOf]
  · intro sym amt tp side e1 e2 e3 rest
    simp [binancePlaceTakeProfit, binancePlaceTakeProfitAux, takeOracle, tpCallOf]
  · intro sym amt tp side oracle
    match oracle with
    | [] =>
      simp [binancePlaceTakeProfit, binancePlaceTakeProfitAux, takeOracle]
    | a :: [] =>
      cases a <;>
        simp [binancePlaceTakeProfit, binancePlaceTakeProfitAux, takeOracle]
    | a :: b :: [] =>
      cases a <;> cases b <;>
        simp [binancePlaceTakeProfit, binancePlaceTakeProfitAux, takeOracle]
    | a :: b :: c :: rest =>
      cases a <;> cases b <;> cases c <;>
        simp [binancePlaceTakeProfit, binancePlaceTakeProfitAux, takeOracle]

/-- C8: on either broker, when amount is absent and cost and leverage are
not both present, placeOrder fails with the sizing error message, issues no
exchange createOrder call, and leaves the simulated positions and balance
untouched. -/
theorem placeOrder_missing_size_params (params : OrderParams)
    (tickerLast : ℚ) (oracle : List (Except String String)) (s : MockState)
    (rand : ℚ) (now : Nat)
    (hamt : params.amount = none)
    (hcl : ¬ (params.cost.isSome = true ∧ params.leverage.isSome = true)) :
    binancePlaceOrder params tickerLast oracle =
      ({ success := false, orderId := none,
         error := some ("Either amount or (cost + leverage) must be specified") },
       []) ∧
    mockPlaceOrder s params rand now =
      ({ success := false, orderId := none,
         error := some ("Either amount or (cost + leverage) must be specified") },
       s) := by
  have htr : truthyQ params.amount = false := by rw [hamt]; rfl
  have hcl2 : ¬ (truthyQ params.cost = true ∧ truthyQ params.leverage = true) := by
    intro hcontra
    apply hcl
    refine ⟨?_, ?_⟩
    · cases hc : params.cost with
      | none => rw [hc] at hcontra; exact absurd hcontra.1 (by simp [truthyQ])
      | some q => rfl
    · cases hl : params.leverage with
      | none => rw [hl] at hcontra; exact absurd hcontra.2 (by simp [truthyQ])
      | some q => rfl
  have hsize : binanceOrderAmount params tickerLast = none := by
    unfold binanceOrderAmount
    rw [htr]
    simp only [Bool.false_eq_true, if_false]
    rw [if_neg (by simpa using hcl2)]
  have hsizem : ∀ p : ℚ, mockOrderAmount params p = none := by
    intro p
    unfold mockOrderAmount
    rw [htr]
    simp only [Bool.false_eq_true, if_false]
    rw [if_neg (by simpa using hcl2)]
  constructor
  · rw [binancePlaceOrder.eq_def, hsize]
  · rw [mockPlaceOrder.eq_def]
    simp only [hsizem]

/-- Closed instance of the C8 theorem: cost given but leverage missing. -/
theorem placeOrder_missing_size_params_witness :
    (binancePlaceOrder
        { symbol := "BTC", side := Side.buy, otype := OType.market,
          amount := none, cost := some 50, price := none, leverage := none,
          stopLoss := none, takeProfit := none, reduceOnly := false }
        100000 []).1.error =
      some ("Either amount or (cost + leverage) must be specified") ∧
    (mockPlaceOrder
        { mockPositions := [], mockBalance := 10000, orderCounter := 1,
          mockPrices := [] }
        { symbol := "BTC", side := Side.buy, otype := OType.market,
          amount := none, cost := some 50, price := none, leverage := none,
          stopLoss := none, takeProfit := none, reduceOnly := false }
        0 0).2 =
      { mockPositions := [], mockBalance := 10000, orderCounter := 1,
        mockPrices := [] } := by
  have h := placeOrder_missing_size_params
    { symbol := "BTC", side := Side.buy, otype := OType.market,
      amount := none, cost := some 50, price := none, leverage := none,
      stopLoss := none, takeProfit := none, reduceOnly := false }
    100000 []
    { mockPositions := [], mockBalance := 10000, orderCounter := 1,
      mockPrices := [] }
    0 0 rfl (by simp)
  exact ⟨by rw [h.1], by rw [h.2]⟩

/-- C4: evaluating MockBroker.placeOrder at the close order that the
close_long tool action issues (sell, position amount, reduceOnly) against
an existing long position.  The call reports success, yet the position
entry survives in the positions map: position updates are skipped for every
reduce-only order, so the simulated close never deletes the entry. -/
theorem mockPlaceOrder_reduceOnly_close_keeps_position :
    (mockPlaceOrder
        { mockPositions :=
            [("BTC/USDT",
              { symbol := "BTC/USDT", side := PosSide.long, amount := 5,
                entryPrice := 100000, markPrice := 100000, pnl := 0,
                leverage := 5, liquidationPrice := 80400 })],
          mockBalance := 10000, orderCounter := 2,
          mockPrices := [("BTC/USDT", 100000)] }
        { symbol := "BTC/USDT", side := Side.sell, otype := OType.market,
          amount := some 5, cost := none, price := none, leverage := none,
          stopLoss := none, takeProfit := none, reduceOnly := true }
        (1 / 2) 123).1.success = true ∧
    (mockPlaceOrder
        { mockPositions :=
            [("BTC/USDT",
              { symbol := "BTC/USDT", side := PosSide.long, amount := 5,
                entryPrice := 100000, markPrice := 100000, pnl := 0,
                leverage := 5, liquidationPrice := 80400 })],
          mockBalance := 10000, orderCounter := 2,
          mockPrices := [("BTC/USDT", 100000)] }
        { symbol := "BTC/USDT", side := Side.sell, otype := OType.market,
          amount := some 5, cost := none, price := none, leverage := none,
          stopLoss := none, takeProfit := none, reduceOnly := true }
        (1 / 2) 123).2.mockPositions =
      [("BTC/USDT",
        { symbol := "BTC/USDT", side := PosSide.long, amount := 5,
          entryPrice := 100000, markPrice := 100000, pnl := 0,
          leverage := 5, liquidationPrice := 80400 })] := by
  constructor
  · rfl
  · rfl

/-- C3 counterexample: an invocation of the account-info tool 3000 ms after
the last sync performs no broker position fetch and leaves the cache
unchanged - the broker position stays invisible - because the tool calls
syncPositions, which honors the 5000 ms cooldown, not forceSync. -/
theorem accountInfo_does_not_bypass_cooldown :
    (accountInfoExecute { positions := [], lastSyncTime := 100000 } 103000
        ["BTC/USDT"] none
        [{ symbol := "BTC/USDT", side := PosSide.long, amount := 5,
           entryPrice := 100000, markPrice := 100000, pnl := 7,
           leverage := 5, liquidationPrice := 80400 }]
        500).2.2 = false ∧
    (accountInfoExecute { positions := [], lastSyncTime := 100000 } 103000
        ["BTC/USDT"] none
        [{ symbol := "BTC/USDT", side := PosSide.long, amount := 5,
           entryPrice := 100000, markPrice := 100000, pnl := 7,
           leverage := 5, liquidationPrice := 80400 }]
        500).2.1 = { positions := [], lastSyncTime := 100000 } := by
  constructor
  · rfl
  · rfl

/-- C3 amended: the account-info tool syncs through syncPositions (honoring
the 5000 ms cooldown; it fetches exactly when the cooldown has elapsed),
and from the post-sync state computes
currentAccountValue = availableCash + totalUnrealizedPnl and the
total-return percentage 100 * (value - initial) / initial with
initialCapital defaulting to 10000. -/
theorem accountInfo_sync_and_formulas (pm : PMState) (now : Nat)
    (symbols : List String) (initialCapital : Option ℚ)
    (bpos : List Position) (bbal : ℚ) :
    ((accountInfoExecute pm now symbols initialCapital bpos bbal).2.1,
     (accountInfoExecute pm now symbols initialCapital bpos bbal).2.2) =
      pmSyncPositions pm now (some symbols) bpos ∧
    (accountInfoExecute pm now symbols initialCapital bpos bbal).1.balance = bbal ∧
    (accountInfoExecute pm now symbols initialCapital bpos bbal).1.currentAccountValue =
      bbal + pmTotalUnrealizedPnL
        (accountInfoExecute pm now symbols initialCapital bpos bbal).2.1 ∧
    (accountInfoExecute pm now symbols initialCapital bpos bbal).1.totalReturn =
      ((accountInfoExecute pm now symbols initialCapital bpos bbal).1.currentAccountValue
          - (if truthyQ initialCapital then initialCapital.getD 0 else 10000))
        / (if truthyQ initialCapital then initialCapital.getD 0 else 10000) * 100 ∧
    (syncCooldown ≤ now - pm.lastSyncTime →
      (accountInfoExecute pm now symbols initialCapital bpos bbal).2.2 = true) := by
  have hx : accountInfoExecute pm now symbols initialCapital bpos bbal =
      match pmSyncPositions pm now (some symbols) bpos with
      | (pm', fetched) =>
        ({ success := true, balance := bbal,
           positionsCount := (pmGetAllPositions pm').length,
           currentAccountValue := bbal + pmTotalUnrealizedPnL pm',
           totalReturn := ((bbal + pmTotalUnrealizedPnL pm')
              - (if truthyQ initialCapital then initialCapital.getD 0 else 10000))
            / (if truthyQ initialCapital then initialCapital.getD 0 else 10000)
            * 100 }, pm', fetched) := rfl
  rcases hsync : pmSyncPositions pm now (some symbols) bpos with ⟨pm', fetched⟩
  rw [hx, hsync]
  refine ⟨rfl, rfl, rfl, rfl, ?_⟩
  intro hcool
  have hn : ¬ (now - pm.lastSyncTime < syncCooldown) := not_lt.mpr hcool
  have hfetch : (pmSyncPositions pm now (some symbols) bpos).2 = true := by
    rw [pmSyncPositions.eq_def, if_neg hn]
  rw [hsync] at hfetch
  exact hfetch

/-- Closed instance of the amended C3 theorem: outside the cooldown the
tool invocation does fetch from the broker. -/
theorem accountInfo_sync_and_formulas_witness :
    syncCooldown ≤ 5000 - ({ positions := [], lastSyncTime := 0 } : PMState).lastSyncTime ∧
    (accountInfoExecute { positions := [], lastSyncTime := 0 } 5000 [] none [] 500).2.2 = true :=
  ⟨by decide,
   (accountInfo_sync_and_formulas { positions := [], lastSyncTime := 0 } 5000 [] none [] 500).2.2.2.2
     (by decide)⟩

/-- C2: RiskGuard.validate allows an order exactly when the normalized
symbol is whitelisted, the leverage lies in [1, maxLeverage] and the cost
in (0, maxCostPerTrade]; it is a pure function of its inputs; and a
rejected open_long or open_short request makes the place-order tool return
success false with rejected true, leaving the position manager untouched
and issuing no broker.placeOrder call. -/
theorem riskValidate_iff_and_no_broker_call :
    (∀ (cfg : RiskConfig) (p : RiskOrderParams),
      (riskValidate cfg p).allowed = true ↔
        (riskNormalizeSymbol p.symbol ∈ cfg.symbolWhitelist ∧
         1 ≤ p.leverage ∧ p.leverage ≤ cfg.maxLeverage ∧
         0 < p.cost ∧ p.cost ≤ cfg.maxCostPerTrade)) ∧
    (∀ (cfg : RiskConfig) (pm : PMState) (now : Nat)
        (brokerFn : OrderParams → OrderResult) (bpos : List Position)
        (args : ToolArgs),
      (args.action = ToolAction.open_long ∨ args.action = ToolAction.open_short) →
      truthyQ args.cost = true → truthyQ args.leverage = true →
      (riskValidate cfg
        { symbol := args.symbol, cost := args.cost.getD 0,
          leverage := args.leverage.getD 0 }).allowed = false →
      (placeOrderExecute cfg pm now brokerFn bpos args).1.success = false ∧
      (placeOrderExecute cfg pm now brokerFn bpos args).1.rejected = true ∧
      (placeOrderExecute cfg pm now brokerFn bpos args).2.1 = pm ∧
      (placeOrderExecute cfg pm now brokerFn bpos args).2.2 = []) := by
  constructor
  · intro cfg p
    simp only [riskValidate]
    by_cases hw : cfg.symbolWhitelist.contains (riskNormalizeSymbol p.symbol) = true
    · rw [if_neg (not_not_intro hw)]
      by_cases hl : p.leverage < 1 ∨ p.leverage > cfg.maxLeverage
      · rw [if_pos hl]
        refine iff_of_false (by simp) ?_
        rintro ⟨-, hl1, hl2, -, -⟩
        rcases hl with h | h
        · linarith
        · linarith
      · rw [if_neg hl]
        by_cases hc : p.cost ≤ 0 ∨ p.cost > cfg.maxCostPerTrade
        · rw [if_pos hc]
          refine iff_of_false (by simp) ?_
          rintro ⟨-, -, -, hc1, hc2⟩
          rcases hc with h | h
          · linarith
          · linarith
        · rw [if_neg hc]
          push_neg at hl hc
          exact iff_of_true rfl ⟨by simpa using hw, hl.1, hl.2, hc.1, hc.2⟩
    · rw [if_pos hw]
      refine iff_of_false (by simp) ?_
      rintro ⟨hcmem, -⟩
      exact hw (by simpa using hcmem)
  · intro cfg pm now brokerFn bpos args hact hcost hlev hval
    rcases hact with h | h
    · rcases args with ⟨asym, aact, ac, al, asl, atp⟩
      cases h
      simp only [placeOrderExecute, hcost, hlev, hval, Bool.not_true,
        Bool.false_eq_true, if_false, not_false_eq_true, if_true]
      exact ⟨rfl, rfl, rfl, rfl⟩
    · rcases args with ⟨asym, aact, ac, al, asl, atp⟩
      cases h
      simp only [placeOrderExecute, hcost, hlev, hval, Bool.not_true,
        Bool.false_eq_true, if_false, not_false_eq_true, if_true]
      exact ⟨rfl, rfl, rfl, rfl⟩

/-- Closed instance of the C2 theorem: spec scenario 2 - a non-whitelisted
open_long is rejected with no broker call. -/
theorem riskValidate_iff_and_no_broker_call_witness :
    (placeOrderExecute
        { maxLeverage := 10, maxCostPerTrade := 100,
          symbolWhitelist := ["BTC/USDT"] }
        { positions := [], lastSyncTime := 0 } 0
        (fun _ => { success := true, orderId := some ("X"), error := none }) []
        { symbol := "DOGE/USDT", action := ToolAction.open_long,
          cost := some 10, leverage := some 2, stopLoss := none,
          takeProfit := none }).1.rejected = true ∧
    (placeOrderExecute
        { maxLeverage := 10, maxCostPerTrade := 100,
          symbolWhitelist := ["BTC/USDT"] }
        { positions := [], lastSyncTime := 0 } 0
        (fun _ => { success := true, orderId := some ("X"), error := none }) []
        { symbol := "DOGE/USDT", action := ToolAction.open_long,
          cost := some 10, leverage := some 2, stopLoss := none,
          takeProfit := none }).2.2 = [] := by
  have h := riskValidate_iff_and_no_broker_call.2
    { maxLeverage := 10, maxCostPerTrade := 100,
      symbolWhitelist := ["BTC/USDT"] }
    { positions := [], lastSyncTime := 0 } 0
    (fun _ => { success := true, orderId := some ("X"), error := none }) []
    { symbol := "DOGE/USDT", action := ToolAction.open_long,
      cost := some 10, leverage := some 2, stopLoss := none,
      takeProfit := none }
    (Or.inl rfl) (by decide) (by decide) (by decide)
  exact ⟨h.2.1, h.2.2.2⟩

/-- C1: in a placeOrder call with reduceOnly unset and a stop loss
requested, when the main order is accepted and all three stop-loss attempts
fail, the broker issues a reduce-only market order of the main order amount
on the opposing side (the last exchange call); if that emergency close is
accepted the result is the protection-failed failure message, and if it is
also refused the result is a failure whose error contains the main order id
and the phrase MANUAL INTERVENTION REQUIRED. -/
theorem binance_rollback_on_protection_failure (params : OrderParams)
    (tickerLast amt : ℚ) (mainId e1 e2 e3 : String)
    (emres : Except String String) (rest : List (Except String String))
    (hro : params.reduceOnly = false)
    (hsl : truthyQ params.stopLoss = true)
    (hamt : binanceOrderAmount params tickerLast = some amt) :
    ((binancePlaceOrder params tickerLast
        (Except.ok mainId :: Except.error e1 :: Except.error e2 ::
          Except.error e3 :: emres :: rest)).2.getLast? =
      some (emCallOf (binanceNormalizeSymbol params.symbol) amt params.side)) ∧
    ((∃ v, emres = Except.ok v) →
      (binancePlaceOrder params tickerLast
        (Except.ok mainId :: Except.error e1 :: Except.error e2 ::
          Except.error e3 :: emres :: rest)).1 =
        { success := false, orderId := none,
          error := some ("Position opened but protection orders failed. Position was closed immediately for safety.") }) ∧
    ((∃ e, emres = Except.error e) →
      (binancePlaceOrder params tickerLast
        (Except.ok mainId :: Except.error e1 :: Except.error e2 ::
          Except.error e3 :: emres :: rest)).1.success = false ∧
      ∃ err,
        (binancePlaceOrder params tickerLast
          (Except.ok mainId :: Except.error e1 :: Except.error e2 ::
            Except.error e3 :: emres :: rest)).1.error = some err ∧
        containsStr err mainId ∧
        containsStr err ("MANUAL INTERVENTION REQUIRED")) := by
  have hsl3 : binancePlaceStopLoss (binanceNormalizeSymbol params.symbol) amt
      (params.stopLoss.getD 0) params.side 3
      (Except.error e1 :: Except.error e2 :: Except.error e3 :: emres :: rest) =
      (none, [1000, 2000],
       [slCallOf (binanceNormalizeSymbol params.symbol) amt
          (params.stopLoss.getD 0) params.side,
        slCallOf (binanceNormalizeSymbol params.symbol) amt
          (params.stopLoss.getD 0) params.side,
        slCallOf (binanceNormalizeSymbol params.symbol) amt
          (params.stopLoss.getD 0) params.side], emres :: rest) := by
    simp [binancePlaceStopLoss, binancePlaceStopLossAux, takeOracle, slCallOf]
  rcases emres with e | v
  · constructor
    · simp [binancePlaceOrder, hamt, takeOracle, hro, hsl, hsl3,
        binanceEmergencyClose, emCallOf]
    · constructor
      · rintro ⟨v, hv⟩
        exact absurd hv (by simp)
      · rintro -
        constructor
        · simp [binancePlaceOrder, hamt, takeOracle, hro, hsl, hsl3,
            binanceEmergencyClose]
        · refine ⟨"CRITICAL: Position opened at "
              ++ binanceNormalizeSymbol params.symbol
              ++ " without protection and emergency close failed! Order ID: "
              ++ mainId ++ ". MANUAL INTERVENTION REQUIRED!", ?_, ?_, ?_⟩
          · simp [binancePlaceOrder, hamt, takeOracle, hro, hsl, hsl3,
              binanceEmergencyClose]
          · exact ⟨"CRITICAL: Position opened at "
                ++ binanceNormalizeSymbol params.symbol
                ++ " without protection and emergency close failed! Order ID: ",
              ". MANUAL INTERVENTION REQUIRED!", by rw [String.append_assoc]⟩
          · refine ⟨("CRITICAL: Position opened at "
                ++ binanceNormalizeSymbol params.symbol
                ++ " without protection and emergency close failed! Order ID: "
                ++ mainId) ++ ". ", "!", ?_⟩
            have hlit : (". MANUAL INTERVENTION REQUIRED!" : String) =
                (". " ++ "MANUAL INTERVENTION REQUIRED") ++ "!" := by decide
            rw [hlit]
            simp [String.append_assoc]
  · constructor
    · simp [binancePlaceOrder, hamt, takeOracle, hro, hsl, hsl3,
        binanceEmergencyClose, emCallOf]
    · constructor
      · rintro -
        simp [binancePlaceOrder, hamt, takeOracle, hro, hsl, hsl3,
          binanceEmergencyClose]
      · rintro ⟨e, he⟩
        exact absurd he (by simp)

/-- Closed instance of the C1 theorem: main order accepted, three stop-loss
failures, emergency close also refused - the result is the CRITICAL
failure naming the main order id. -/
theorem binance_rollback_on_protection_failure_witness :
    (binancePlaceOrder
        { symbol := "BTC", side := Side.buy, otype := OType.market,
          amount := some 1, cost := none, price := none, leverage := none,
          stopLoss := some 95000, takeProfit := none, reduceOnly := false }
        100000
        [Except.ok ("42"), Except.error ("a"), Except.error ("b"), Except.error ("c"),
         Except.error ("boom")]).1.success = false ∧
    ∃ err,
      (binancePlaceOrder
          { symbol := "BTC", side := Side.buy, otype := OType.market,
            amount := some 1, cost := none, price := none, leverage := none,
            stopLoss := some 95000, takeProfit := none, reduceOnly := false }
          100000
          [Except.ok ("42"), Except.error ("a"), Except.error ("b"), Except.error ("c"),
           Except.error ("boom")]).1.error = some err ∧
      containsStr err ("42") ∧
      containsStr err ("MANUAL INTERVENTION REQUIRED") :=
  (binance_rollback_on_protection_failure
      { symbol := "BTC", side := Side.buy, otype := OType.market,
        amount := some 1, cost := none, price := none, leverage := none,
        stopLoss := some 95000, takeProfit := none, reduceOnly := false }
      100000 1 ("42") ("a") ("b") ("c") (Except.error ("boom")) [] rfl (by decide)
      (by decide)).2.2 ⟨"boom", rfl⟩

end Nof1
